import Mathlib

/-!
Verification development for the uptime-monitor check worker.

The worker (src/index.ts) performs one HTTP health probe per job, classifies
the outcome, drives a per-monitor incident lifecycle against the database,
and fans notifications out to the configured channels of a user
(src/notification.ts).

The embedding below is shallow: the ambient effects (the HTTP response or
failure observed by axios, the wall clock, the per-channel delivery
outcomes, the database rows) are passed in explicitly, and each TypeScript
function becomes a pure Lean function on those inputs.
-/

namespace UptimeWorker

/-- Monitor descriptor handed to the prober (interface MonitorCheck). -/
structure MonitorCheck where
  monitorId : String
  url : String
  method : String
  expectedStatus : Nat
  headers : List (String × String)
  userId : String
  name : Option String
deriving Repr, DecidableEq

/-- Probe error classification (CheckResults.errorType). -/
inductive ErrorType
  | timeout
  | network
  | status
  | unknown
deriving Repr, DecidableEq

/-- Classified probe outcome (interface CheckResults). -/
structure CheckResults where
  isUp : Bool
  responseMs : Nat
  statusCode : Option Nat
  errorMessage : Option String
  errorType : ErrorType
deriving Repr, DecidableEq

/-- The data of an AxiosError the catch branch inspects: error.code,
error.response?.status, error.response?.statusText, error.message. -/
structure AxiosErrorInfo where
  code : Option String
  responseStatus : Option Nat
  responseStatusText : String
  message : String
deriving Repr, DecidableEq

/-- What the axios request in performHealthCheck can come back with: a
response (validateStatus accepts every status, so a received response never
throws), a thrown AxiosError, a thrown ordinary Error with its message, or a
thrown non-Error value. -/
inductive ProbeOutcome
  | response (status : Nat)
  | axiosError (e : AxiosErrorInfo)
  | jsError (message : String)
  | nonErrorThrow
deriving Repr, DecidableEq

/-- JavaScript `a || b` on an optional string: the fallback is used when the
value is absent or the empty string (falsy). -/
def jsStrOr : Option String → String → String
  | some s, b => if s = "" then b else s
  | none, b => b

/-- performHealthCheck (src/index.ts lines 40 to 104), with the observed HTTP
outcome and the measured elapsed milliseconds passed in explicitly.  The
function is total: every network failure mode is returned as data, never
thrown. -/
def performHealthCheck (monitor : MonitorCheck) (outcome : ProbeOutcome)
    (elapsed : Nat) : CheckResults :=
  match outcome with
  | .response status =>
      if status = monitor.expectedStatus then
        { isUp := true, responseMs := elapsed, statusCode := some status,
          errorMessage := none, errorType := .unknown }
      else
        { isUp := false, responseMs := elapsed, statusCode := some status,
          errorMessage := some ("Expected " ++ toString monitor.expectedStatus
            ++ ", got " ++ toString status),
          errorType := .status }
  | .axiosError e =>
      if e.code = some "ECONNABORTED" ∨ e.code = some "ETIMEDOUT" then
        { isUp := false, responseMs := elapsed, statusCode := none,
          errorMessage := some ("Request timeout after " ++ toString elapsed ++ "ms"),
          errorType := .timeout }
      else if e.code = some "ECONNREFUSED" ∨ e.code = some "ENOTFOUND" then
        { isUp := false, responseMs := elapsed, statusCode := none,
          errorMessage := some ("Network error: " ++ e.code.getD ""),
          errorType := .network }
      else if e.responseStatus.getD 0 ≠ 0 then
        { isUp := false, responseMs := elapsed, statusCode := e.responseStatus,
          errorMessage := some ("HTTP " ++ toString (e.responseStatus.getD 0)
            ++ ": " ++ e.responseStatusText),
          errorType := .status }
      else
        { isUp := false, responseMs := elapsed, statusCode := none,
          errorMessage := some (if e.message = "" then "Unknown axios error" else e.message),
          errorType := .unknown }
  | .jsError message =>
      { isUp := false, responseMs := elapsed, statusCode := none,
        errorMessage := some message, errorType := .unknown }
  | .nonErrorThrow =>
      { isUp := false, responseMs := elapsed, statusCode := none,
        errorMessage := some "Unknown error occurred", errorType := .unknown }

/-- Notification priority levels. -/
inductive Priority
  | low
  | medium
  | high
  | critical
deriving Repr, DecidableEq

/-- A rendered notification (title, message, priority). -/
structure NotificationMsg where
  title : String
  message : String
  priority : Priority
deriving Repr, DecidableEq

/-- getTroubleshootingTips (src/index.ts lines 165 to 188). -/
def getTroubleshootingTips (errorType : ErrorType) : String :=
  match errorType with
  | .timeout =>
      "💡 Troubleshooting tips:\n• Check if your server is overloaded\n• Verify network connectivity\n• Consider increasing timeout if legitimate slow response"
  | .network =>
      "💡 Troubleshooting tips:\n• Verify the URL is correct and accessible\n• Check DNS resolution\n• Ensure firewall/security groups allow connections"
  | .status =>
      "💡 Troubleshooting tips:\n• Check server logs for errors\n• Verify the service is running properly\n• Review recent deployments or changes"
  | .unknown =>
      "💡 We recommend checking your server logs and service status."

/-- generateNotificationMessages (src/index.ts lines 107 to 163).  The
template literal new Date().toLocaleString() is ambient wall-clock state and
is passed in as nowStr. -/
def generateNotificationMessages (monitor : MonitorCheck) (results : CheckResults)
    (isNewIncident : Bool) (isResolved : Bool) (nowStr : String) : NotificationMsg :=
  let serviceName := jsStrOr monitor.name monitor.url
  if isResolved then
    { title := "✅ Service Restored: " ++ serviceName,
      message := "Good news! Your monitored service is back online.\n\n🔗 Service: "
        ++ serviceName ++ "\n⏱️ Response Time: " ++ toString results.responseMs
        ++ "ms\n📊 Status: "
        ++ (match results.statusCode with
            | some c => if c = 0 then "N/A" else toString c
            | none => "N/A")
        ++ "\n🕒 Resolved at: " ++ nowStr
        ++ "\n\nYour service is now responding normally.",
      priority := .medium }
  else if isNewIncident then
    let errorDetails := jsStrOr results.errorMessage "Unknown error"
    let troubleshootingTips := getTroubleshootingTips results.errorType
    { title := "🚨 Service Down: " ++ serviceName,
      message := "Your monitored service is currently experiencing issues.\n\n🔗 Service: "
        ++ serviceName ++ "\n❌ Status: " ++ errorDetails
        ++ "\n⏱️ Response Time: " ++ toString results.responseMs
        ++ "ms\n🕒 Started at: " ++ nowStr ++ "\n\n"
        ++ (troubleshootingTips
          ++ "\n\nWe\u0027ll continue monitoring and notify you when the service is restored."),
      priority := .critical }
  else
    { title := "⚠️ Service Still Down: " ++ serviceName,
      message := "Your service continues to experience issues.\n\n🔗 Service: "
        ++ serviceName ++ "\n❌ Current Status: "
        ++ jsStrOr results.errorMessage "Unknown error"
        ++ "\n⏱️ Latest Check: " ++ toString results.responseMs
        ++ "ms\n🕒 Last Checked: " ++ nowStr
        ++ "\n\nWe\u0027re still monitoring the situation.",
      priority := .high }

/-! ## Database rows (src/db/schema.ts) and the worker job (src/index.ts) -/

/-- Monitor row fields the worker reads or writes. -/
inductive MonitorStatus
  | up
  | down
  | paused
  | unknown
deriving Repr, DecidableEq

/-- A monitor row (table monitor). -/
structure Monitor where
  id : String
  name : String
  url : String
  method : String
  expectedStatus : Nat
  headers : List (String × String)
  status : MonitorStatus
  userId : String
deriving Repr, DecidableEq

/-- A check_result row as inserted by the worker. -/
structure CheckResult where
  monitorId : String
  status : MonitorStatus
  responseMs : Nat
  createdAt : Nat
deriving Repr, DecidableEq

/-- incident.status enum (schema incidentStatus: open or resolved). -/
inductive IncidentStatus
  | open_
  | resolved
deriving Repr, DecidableEq

/-- An incident row.  Timestamps are milliseconds since the epoch. -/
structure Incident where
  id : Nat
  monitorId : String
  userId : String
  status : IncidentStatus
  startAt : Nat
  endAt : Option Nat
  durationMs : Int
  errorMessage : String
deriving Repr, DecidableEq

/-- The database state the worker reads and writes.  nextIncidentId stands in
for the primary-key generation of inserted incident rows. -/
structure DbState where
  monitors : List Monitor
  checkResults : List CheckResult
  incidents : List Incident
  nextIncidentId : Nat
deriving Repr, DecidableEq

/-- A notification event the worker hands to NotificationService.notifyUser
(title, message, priority plus the metadata identifying monitor and
incident). -/
structure NotificationEvent where
  userId : String
  title : String
  message : String
  priority : Priority
  monitorId : String
  incidentId : Option Nat
deriving Repr, DecidableEq

/-- The errorMessage written to an incident row: results.errorMessage with the
JavaScript fallback string HTTP statusCode-or-Unknown. -/
def incidentErrorMessage (results : CheckResults) : String :=
  jsStrOr results.errorMessage
    ("HTTP " ++ (match results.statusCode with
      | some c => if c = 0 then "Unknown" else toString c
      | none => "Unknown"))

/-- The MonitorCheck descriptor the worker builds from a fetched monitor row. -/
def toMonitorCheck (m : Monitor) : MonitorCheck :=
  { monitorId := m.id, url := m.url, method := m.method,
    expectedStatus := m.expectedStatus, headers := m.headers,
    userId := m.userId, name := some m.name }

/-- db.select().from(monitor).where(eq(monitor.id, monitorId)) destructured to
its first row. -/
def findMonitor (monitors : List Monitor) (monitorId : String) : Option Monitor :=
  (monitors.filter (fun m => m.id == monitorId)).head?

/-- Incident rows of one monitor. -/
def rowsFor (incidents : List Incident) (monitorId : String) : List Incident :=
  incidents.filter (fun i => i.monitorId == monitorId)

/-- Incident rows of one monitor with endAt null. -/
def openIncidentsFor (incidents : List Incident) (monitorId : String) : List Incident :=
  incidents.filter (fun i => i.monitorId == monitorId && i.endAt.isNone)

/-- db.select().from(incident).where(and(eq(incident.monitorId, monitorId),
isNull(incident.endAt))) destructured to its first row. -/
def findOpenIncident (incidents : List Incident) (monitorId : String) : Option Incident :=
  (openIncidentsFor incidents monitorId).head?

/-- db.update(incident).set(...).where(eq(incident.id, incidentId)). -/
def updateIncidentRow (incidents : List Incident) (incidentId : Nat)
    (f : Incident → Incident) : List Incident :=
  incidents.map (fun i => if i.id == incidentId then f i else i)

/-- db.update(monitor).set(status).where(eq(monitor.id, monitorId)). -/
def setMonitorStatus (monitors : List Monitor) (monitorId : String)
    (st : MonitorStatus) : List Monitor :=
  monitors.map (fun m => if m.id == monitorId then { m with status := st } else m)

/-- The ongoing-incident update (src/index.ts lines 248 to 253): recompute
durationMs from now and the startAt of the fetched incident, and refresh the
error message.  endAt and status are untouched. -/
def ongoingUpdate (results : CheckResults) (now : Nat) (ongoingIncident : Incident) :
    Incident → Incident :=
  fun i => { i with
    durationMs := (now : Int) - (ongoingIncident.startAt : Int),
    errorMessage := incidentErrorMessage results }

/-- The resolve update (src/index.ts lines 320 to 325): set endAt to the end
time and durationMs to endTime minus startAt.  Note the set clause writes
endAt and durationMs only; status is not written. -/
def resolveUpdate (now : Nat) (ongoingIncident : Incident) : Incident → Incident :=
  fun i => { i with endAt := some now,
                    durationMs := (now : Int) - (ongoingIncident.startAt : Int) }

/-- The freshly inserted incident row (src/index.ts lines 258 to 266). -/
def newIncidentRow (s : DbState) (existingMonitor : Monitor) (results : CheckResults)
    (now : Nat) : Incident :=
  { id := s.nextIncidentId, monitorId := existingMonitor.id,
    userId := existingMonitor.userId, status := .open_,
    startAt := now, endAt := none, durationMs := 0,
    errorMessage := incidentErrorMessage results }

/-- The notification event the worker hands to the dispatcher for a new
incident (src/index.ts lines 270 to 296). -/
def newIncidentEvent (s : DbState) (existingMonitor : Monitor) (results : CheckResults)
    (nowStr : String) : NotificationEvent :=
  let n := generateNotificationMessages (toMonitorCheck existingMonitor)
    results true false nowStr
  { userId := existingMonitor.userId, title := n.title, message := n.message,
    priority := n.priority, monitorId := existingMonitor.id,
    incidentId := some s.nextIncidentId }

/-- The notification event the worker hands to the dispatcher for a resolved
incident (src/index.ts lines 329 to 356). -/
def resolvedEvent (existingMonitor : Monitor) (results : CheckResults)
    (nowStr : String) (ongoingIncident : Incident) : NotificationEvent :=
  let n := generateNotificationMessages (toMonitorCheck existingMonitor)
    results false true nowStr
  { userId := existingMonitor.userId, title := n.title, message := n.message,
    priority := n.priority, monitorId := existingMonitor.id,
    incidentId := some ongoingIncident.id }

/-- The body of the worker job after the probe returned (src/index.ts lines
218 to 363): write the monitor status, append the check result, then run the
incident transition and collect the notification events handed to the
dispatcher.  now is Date.now() in milliseconds and nowStr its locale
rendering. -/
def handleResults (s : DbState) (existingMonitor : Monitor) (results : CheckResults)
    (now : Nat) (nowStr : String) : DbState × List NotificationEvent :=
  let monitorId := existingMonitor.id
  let newStatus := if results.isUp then MonitorStatus.up else MonitorStatus.down
  let s := { s with monitors := setMonitorStatus s.monitors monitorId newStatus }
  let s := { s with checkResults := s.checkResults ++
    [{ monitorId := monitorId, status := newStatus,
       responseMs := results.responseMs, createdAt := now }] }
  if !results.isUp then
    match findOpenIncident s.incidents monitorId with
    | some ongoingIncident =>
        let updated := updateIncidentRow s.incidents ongoingIncident.id
          (ongoingUpdate results now ongoingIncident)
        ({ s with incidents := updated }, [])
    | none =>
        let newIncident := newIncidentRow s existingMonitor results now
        let s2 := { s with incidents := s.incidents ++ [newIncident],
                           nextIncidentId := s.nextIncidentId + 1 }
        (s2, [newIncidentEvent s existingMonitor results nowStr])
  else
    match findOpenIncident s.incidents monitorId with
    | some ongoingIncident =>
        let updated := updateIncidentRow s.incidents ongoingIncident.id
          (resolveUpdate now ongoingIncident)
        ({ s with incidents := updated },
         [resolvedEvent existingMonitor results nowStr ongoingIncident])
    | none => (s, [])

/-- One worker job (src/index.ts lines 192 to 371): fetch the monitor; if it
is missing the job is a no-op; otherwise probe and handle the results. -/
def processJob (s : DbState) (monitorId : String) (probe : ProbeOutcome)
    (elapsed now : Nat) (nowStr : String) : DbState × List NotificationEvent :=
  match findMonitor s.monitors monitorId with
  | none => (s, [])
  | some existingMonitor =>
      handleResults s existingMonitor
        (performHealthCheck (toMonitorCheck existingMonitor) probe elapsed) now nowStr

/-- One enqueued check job together with the ambient observations made while
executing it. -/
structure Job where
  monitorId : String
  probe : ProbeOutcome
  elapsed : Nat
  now : Nat
  nowStr : String
deriving Repr, DecidableEq

/-- A sequence of job executions, one at a time, collecting every
notification event emitted along the way. -/
def runJobs (s : DbState) (jobs : List Job) : DbState × List NotificationEvent :=
  match jobs with
  | [] => (s, [])
  | j :: rest =>
      let step := processJob s j.monitorId j.probe j.elapsed j.now j.nowStr
      let restRun := runJobs step.1 rest
      (restRun.1, step.2 ++ restRun.2)

/-! ## Notification dispatcher (src/notification.ts) -/

/-- The payload of NotificationService.notifyUser. -/
structure NotificationPayload where
  userId : String
  title : String
  message : String
  priority : Priority
deriving Repr, DecidableEq

/-- A notification_channel row. -/
structure NotificationChannel where
  id : String
  userId : String
  type : String
  value : String
deriving Repr, DecidableEq

/-- A per-channel result entry of notifyUser. -/
structure NotificationResult where
  channelId : String
  type : String
  success : Bool
  error : Option String
deriving Repr, DecidableEq

/-- What the axios.post inside sendWebhook observes: an HTTP response with a
status, or a transport-level failure with its message. -/
inductive WebhookOutcome
  | response (status : Nat)
  | netError (message : String)
deriving Repr, DecidableEq

/-- Delivery semantics of sendWebhook (src/notification.ts lines 98 to 168):
the payload rendering per channel type is pure formatting and is abstracted
away; the modelled part is validateStatus status below 500, so a response
with status below 500 returns normally and a status of 500 or above makes
axios throw, which the caller sees as a failed delivery. -/
def sendWebhook (outcome : WebhookOutcome) : Except String Unit :=
  match outcome with
  | .response status =>
      if status < 500 then Except.ok ()
      else Except.error ("Request failed with status code " ++ toString status)
  | .netError message => Except.error message

/-- The ambient delivery outcomes for one notifyUser call: what sendEmail
does for a channel and what the webhook POST comes back with. -/
structure DeliveryEnv where
  emailOutcome : NotificationChannel → Except String Unit
  webhookOutcome : NotificationChannel → WebhookOutcome

/-- The per-channel closure inside notifyUser (src/notification.ts lines 193
to 224): dispatch on the channel type, catch any failure, and produce this
channel result entry. -/
def dispatchChannel (env : DeliveryEnv) (channel : NotificationChannel) :
    NotificationResult :=
  let attempt : Except String Unit :=
    if channel.type = "email" then env.emailOutcome channel
    else if channel.type = "slack" ∨ channel.type = "discord" ∨ channel.type = "webhook" then
      sendWebhook (env.webhookOutcome channel)
    else Except.error ("Unsupported channel type: " ++ channel.type)
  match attempt with
  | Except.ok _ =>
      { channelId := channel.id, type := channel.type, success := true, error := none }
  | Except.error e =>
      { channelId := channel.id, type := channel.type, success := false, error := some e }

/-- NotificationService.notifyUser (src/notification.ts lines 170 to 252):
reject missing parameters (JavaScript falsy check), propagate a failure of
the channel enumeration query, and otherwise produce one result entry per
channel; the empty channel list yields the empty result list. -/
def notifyUser (payload : NotificationPayload)
    (channelsQuery : Except String (List NotificationChannel))
    (env : DeliveryEnv) : Except String (List NotificationResult) :=
  if payload.userId = "" ∨ payload.title = "" ∨ payload.message = "" then
    Except.error "Missing required notification parameters"
  else
    match channelsQuery with
    | Except.error e => Except.error e
    | Except.ok channels => Except.ok (channels.map (dispatchChannel env))

/-! ## Concrete states used to exercise the definitions -/

/-- A monitor row expecting HTTP 200. -/
def exMonitor : Monitor :=
  { id := "m1", name := "svc", url := "http://x", method := "GET",
    expectedStatus := 200, headers := [], status := .unknown, userId := "u1" }

/-- An open incident row for exMonitor (endAt null, status open). -/
def exOpenIncident : Incident :=
  { id := 1, monitorId := "m1", userId := "u1", status := .open_,
    startAt := 1000, endAt := none, durationMs := 0, errorMessage := "HTTP 500" }

/-- A database state with one monitor and one open incident. -/
def exState : DbState :=
  { monitors := [exMonitor], checkResults := [], incidents := [exOpenIncident],
    nextIncidentId := 2 }

/-- A database state with one monitor and no incidents. -/
def exStateNoIncident : DbState :=
  { monitors := [exMonitor], checkResults := [], incidents := [], nextIncidentId := 1 }

/-- The data invariant of the incident table claimed by the spec: a row has
endAt null exactly when its status is open. -/
def endAtNullIffOpen (s : DbState) : Prop :=
  ∀ i ∈ s.incidents, (i.endAt = none ↔ i.status = IncidentStatus.open_)

/-- The incident row as it stands after the resolve step of the C3
counterexample: endAt set, status still open. -/
def exOpenIncidentResolvedRow : Incident :=
  { exOpenIncident with endAt := some 2000, durationMs := 1000 }

/-- The single-open-incident invariant: at most one incident row with endAt
null exists for a monitor. -/
def atMostOneOpen (s : DbState) (m : String) : Prop :=
  (openIncidentsFor s.incidents m).length ≤ 1

/-- The classified probe results of one job against a monitor row. -/
def jobResults (em : Monitor) (j : Job) : CheckResults :=
  performHealthCheck (toMonitorCheck em) j.probe j.elapsed

/-- The incident row left behind by a sequence of down jobs that keep
updating one open incident: each update overwrites durationMs and
errorMessage, so only the last job of the sequence matters. -/
def downUpdatedIncident (em : Monitor) (inc : Incident) : List Job → Incident
  | [] => inc
  | [j] => ongoingUpdate (jobResults em j) j.now inc inc
  | _ :: j :: rest => downUpdatedIncident em inc (j :: rest)

/-! ## Theorems -/

/-- C9: a job whose monitorId matches no monitor row completes as a no-op:
the database state is returned unchanged (no monitor status write, no
CheckResult append, no incident create or update) and no notification event
is dispatched. -/
theorem missing_monitor_noop (s : DbState) (monitorId : String)
    (probe : ProbeOutcome) (elapsed now : Nat) (nowStr : String)
    (h : findMonitor s.monitors monitorId = none) :
    processJob s monitorId probe elapsed now nowStr = (s, []) := by
  simp [processJob, h]

/-- C9 witness: a concrete job against a state that has no monitor rows. -/
theorem missing_monitor_noop_witness :
    processJob { monitors := [], checkResults := [], incidents := [],
                 nextIncidentId := 1 } "m1" (.response 200) 50 2000 "t" =
      ({ monitors := [], checkResults := [], incidents := [],
         nextIncidentId := 1 }, []) :=
  missing_monitor_noop _ "m1" (.response 200) 50 2000 "t" (by decide)

/-- C6: the probe classification: a received response whose status equals the
expected status yields isUp true; a received response with a mismatching
status yields isUp false, errorType status and the message Expected X, got Y;
an aborted or timed-out request yields errorType timeout and isUp false.  The
function itself is total on every probe outcome, so no ordinary network
failure mode escapes as an exception. -/
theorem performHealthCheck_classification (m : MonitorCheck) (st elapsed : Nat)
    (e : AxiosErrorInfo) :
    (st = m.expectedStatus →
      (performHealthCheck m (.response st) elapsed).isUp = true) ∧
    (st ≠ m.expectedStatus →
      (performHealthCheck m (.response st) elapsed).isUp = false ∧
      (performHealthCheck m (.response st) elapsed).errorType = .status ∧
      (performHealthCheck m (.response st) elapsed).errorMessage =
        some ("Expected " ++ toString m.expectedStatus ++ ", got " ++ toString st)) ∧
    ((e.code = some "ECONNABORTED" ∨ e.code = some "ETIMEDOUT") →
      (performHealthCheck m (.axiosError e) elapsed).errorType = .timeout ∧
      (performHealthCheck m (.axiosError e) elapsed).isUp = false) := by
  refine ⟨fun h => ?_, fun h => ?_, fun h => ?_⟩
  · simp [performHealthCheck, h]
  · simp [performHealthCheck, h]
  · simp [performHealthCheck, h]

/-- C6 witness: the three classification branches at concrete probes. -/
theorem performHealthCheck_classification_witness :
    (performHealthCheck (toMonitorCheck exMonitor) (.response 200) 50).isUp = true ∧
    (performHealthCheck (toMonitorCheck exMonitor) (.response 500) 50).isUp = false ∧
    (performHealthCheck (toMonitorCheck exMonitor) (.response 500) 50).errorType = .status ∧
    (performHealthCheck (toMonitorCheck exMonitor)
      (.axiosError ⟨some "ECONNABORTED", none, "", ""⟩) 10000).errorType = .timeout := by
  refine ⟨?_, ?_, ?_, ?_⟩
  · exact (performHealthCheck_classification (toMonitorCheck exMonitor) 200 50
      ⟨none, none, "", ""⟩).1 (by decide)
  · exact ((performHealthCheck_classification (toMonitorCheck exMonitor) 500 50
      ⟨none, none, "", ""⟩).2.1 (by decide)).1
  · exact ((performHealthCheck_classification (toMonitorCheck exMonitor) 500 50
      ⟨none, none, "", ""⟩).2.1 (by decide)).2.1
  · exact ((performHealthCheck_classification (toMonitorCheck exMonitor) 200 10000
      ⟨some "ECONNABORTED", none, "", ""⟩).2.2 (Or.inl rfl)).1

/-- C10: whenever the prober reports the service down, an error message is
present: the status-mismatch branch and every catch branch assign one. -/
theorem down_result_has_errorMessage (m : MonitorCheck) (probe : ProbeOutcome)
    (elapsed : Nat) (h : (performHealthCheck m probe elapsed).isUp = false) :
    (performHealthCheck m probe elapsed).errorMessage.isSome = true := by
  cases probe with
  | response st =>
      by_cases hst : st = m.expectedStatus
      · simp [performHealthCheck, hst] at h
      · simp [performHealthCheck, hst]
  | axiosError e =>
      simp only [performHealthCheck]
      split
      · simp_all
      · split
        · simp_all
        · split
          · simp_all
          · simp_all
  | jsError msg => simp [performHealthCheck]
  | nonErrorThrow => simp [performHealthCheck]

/-- C10 witness: a concrete down result carries an error message. -/
theorem down_result_has_errorMessage_witness :
    (performHealthCheck (toMonitorCheck exMonitor) (.response 500) 50).errorMessage.isSome
      = true :=
  down_result_has_errorMessage (toMonitorCheck exMonitor) (.response 500) 50 (by decide)

/-- C1 counterexample: an up probe against a monitor with an open incident.
The job does set endAt to now, does set durationMs to exactly endAt minus
startAt, and does emit the Resolved notification with priority medium, but
the update never writes status, so the incident row keeps status open instead
of being set to resolved as the claim (and the schema enum resolved) intend. -/
theorem resolve_leaves_status_open :
    (processJob exState "m1" (.response 200) 50 2000 "t").1.incidents.map
        (fun i => (i.status, i.endAt, i.durationMs)) =
      [(IncidentStatus.open_, some 2000, (1000 : Int))] ∧
    (processJob exState "m1" (.response 200) 50 2000 "t").2.map
        (fun ev => ev.priority) = [Priority.medium] := by
  decide

/-- C3 counterexample: the resolve step breaks the endAt-null-iff-open data
invariant: starting from a state satisfying it, an up probe against the open
incident produces a row with endAt set but status still open, because the
resolution update writes endAt and durationMs only and never writes status. -/
theorem resolve_breaks_endAt_iff_open :
    endAtNullIffOpen exState ∧
    ¬ endAtNullIffOpen (processJob exState "m1" (.response 200) 50 2000 "t").1 := by
  constructor
  · intro i hi
    simp only [exState, List.mem_singleton] at hi
    subst hi
    decide
  · intro h
    have hmem : exOpenIncidentResolvedRow ∈
        (processJob exState "m1" (.response 200) 50 2000 "t").1.incidents := by decide
    have := h exOpenIncidentResolvedRow hmem
    revert this
    decide

/-- C7: for a valid payload, notifyUser returns one result entry per
configured channel (exactly K entries for K channels, the empty list for
zero channels, without raising), the entry of a channel is determined by
that channel and its own delivery outcomes alone — so one channel failing
cannot change what is recorded for another — and the call fails only when
the channel enumeration query itself fails, whose error it propagates. -/
theorem notifyUser_per_channel_results (payload : NotificationPayload)
    (channels : List NotificationChannel) (env env' : DeliveryEnv) (k : Nat)
    (dbErr : String)
    (hu : payload.userId ≠ "") (ht : payload.title ≠ "") (hm : payload.message ≠ "")
    (hmail : channels[k]?.map env.emailOutcome = channels[k]?.map env'.emailOutcome)
    (hweb : channels[k]?.map env.webhookOutcome = channels[k]?.map env'.webhookOutcome) :
    notifyUser payload (Except.ok channels) env =
      Except.ok (channels.map (dispatchChannel env)) ∧
    (channels.map (dispatchChannel env)).length = channels.length ∧
    notifyUser payload (Except.ok []) env = Except.ok [] ∧
    (channels.map (dispatchChannel env))[k]? =
      (channels.map (dispatchChannel env'))[k]? ∧
    notifyUser payload (Except.error dbErr) env = Except.error dbErr := by
  refine ⟨?_, ?_, ?_, ?_, ?_⟩
  · simp [notifyUser, hu, ht, hm]
  · exact channels.length_map _
  · simp [notifyUser, hu, ht, hm]
  · rw [List.getElem?_map, List.getElem?_map]
    cases hch : channels[k]? with
    | none => rfl
    | some ch =>
        rw [hch] at hmail hweb
        simp only [Option.map_some'] at hmail hweb ⊢
        have hm1 := Option.some.inj hmail
        have hw1 := Option.some.inj hweb
        simp only [dispatchChannel, hm1, hw1]
  · simp [notifyUser, hu, ht, hm]

/-- C7 witness: two channels, the second made to fail, against an
environment that agrees with itself on the first channel. -/
theorem notifyUser_per_channel_results_witness :
    notifyUser { userId := "u1", title := "t", message := "m", priority := .critical }
        (Except.ok
          [{ id := "c1", userId := "u1", type := "email", value := "a@b" },
           { id := "c2", userId := "u1", type := "webhook", value := "http://w" }])
        { emailOutcome := fun _ => Except.ok (),
          webhookOutcome := fun _ => WebhookOutcome.netError "boom" } =
      Except.ok
        [{ channelId := "c1", type := "email", success := true, error := none },
         { channelId := "c2", type := "webhook", success := false,
           error := some "boom" }] := by
  have h := notifyUser_per_channel_results
    { userId := "u1", title := "t", message := "m", priority := .critical }
    [{ id := "c1", userId := "u1", type := "email", value := "a@b" },
     { id := "c2", userId := "u1", type := "webhook", value := "http://w" }]
    { emailOutcome := fun _ => Except.ok (),
      webhookOutcome := fun _ => WebhookOutcome.netError "boom" }
    { emailOutcome := fun _ => Except.ok (),
      webhookOutcome := fun _ => WebhookOutcome.netError "boom" }
    0 "dbdown" (by decide) (by decide) (by decide) rfl rfl
  rw [h.1]
  rfl

/-- C8: for a webhook channel, an HTTP response with status 500 or above is
a delivery failure — the channel result entry reports success false with the
error captured — while a status in 400 to 499 does not make the transport
throw (sendWebhook returns normally) and the dispatcher records the entry
per its own success check, as success true. -/
theorem webhook_status_handling (env : DeliveryEnv) (ch : NotificationChannel)
    (st : Nat) (hty : ch.type = "webhook")
    (hresp : env.webhookOutcome ch = WebhookOutcome.response st) :
    (500 ≤ st →
      (dispatchChannel env ch).success = false ∧
      (dispatchChannel env ch).error =
        some ("Request failed with status code " ++ toString st)) ∧
    (400 ≤ st → st < 500 →
      sendWebhook (WebhookOutcome.response st) = Except.ok () ∧
      (dispatchChannel env ch).success = true) := by
  constructor
  · intro h5
    have hlt : ¬ st < 500 := by omega
    simp [dispatchChannel, hty, hresp, sendWebhook, hlt]
  · intro h4 hlt
    simp [dispatchChannel, hty, hresp, sendWebhook, hlt]

/-- C8 witness: a 503 response is recorded as a failed entry and a 404
response does not throw and is recorded as success per the dispatcher check. -/
theorem webhook_status_handling_witness :
    (dispatchChannel
      { emailOutcome := fun _ => Except.ok (),
        webhookOutcome := fun _ => WebhookOutcome.response 503 }
      { id := "c2", userId := "u1", type := "webhook", value := "http://w" }).success
        = false ∧
    sendWebhook (WebhookOutcome.response 404) = Except.ok () ∧
    (dispatchChannel
      { emailOutcome := fun _ => Except.ok (),
        webhookOutcome := fun _ => WebhookOutcome.response 404 }
      { id := "c2", userId := "u1", type := "webhook", value := "http://w" }).success
        = true := by
  refine ⟨?_, ?_, ?_⟩
  · exact ((webhook_status_handling
      { emailOutcome := fun _ => Except.ok (),
        webhookOutcome := fun _ => WebhookOutcome.response 503 }
      { id := "c2", userId := "u1", type := "webhook", value := "http://w" }
      503 rfl rfl).1 (by omega)).1
  · exact ((webhook_status_handling
      { emailOutcome := fun _ => Except.ok (),
        webhookOutcome := fun _ => WebhookOutcome.response 404 }
      { id := "c2", userId := "u1", type := "webhook", value := "http://w" }
      404 rfl rfl).2 (by omega) (by omega)).1
  · exact ((webhook_status_handling
      { emailOutcome := fun _ => Except.ok (),
        webhookOutcome := fun _ => WebhookOutcome.response 404 }
      { id := "c2", userId := "u1", type := "webhook", value := "http://w" }
      404 rfl rfl).2 (by omega) (by omega)).2

/-- Mapping a row function that preserves monitorId and endAt over the
incident table maps the open rows of every monitor pointwise. -/
lemma openIncidentsFor_map_eq (incidents : List Incident) (g : Incident → Incident)
    (m : String) (hg : ∀ i, (g i).monitorId = i.monitorId ∧ (g i).endAt = i.endAt) :
    openIncidentsFor (incidents.map g) m = (openIncidentsFor incidents m).map g := by
  unfold openIncidentsFor
  rw [List.filter_map]
  congr 1
  apply List.filter_congr
  intro i _
  simp [Function.comp, (hg i).1, (hg i).2]

/-- Mapping a row function that never turns a closed row of a monitor into an
open one cannot increase the number of open rows of that monitor. -/
lemma openIncidentsFor_map_le (incidents : List Incident) (g : Incident → Incident)
    (m : String)
    (hg : ∀ i, ((g i).monitorId == m && (g i).endAt.isNone) = true →
               (i.monitorId == m && i.endAt.isNone) = true) :
    (openIncidentsFor (incidents.map g) m).length ≤
      (openIncidentsFor incidents m).length := by
  unfold openIncidentsFor
  rw [List.filter_map, List.length_map, ← List.countP_eq_length_filter,
    ← List.countP_eq_length_filter]
  exact List.countP_mono_left (fun i _ hi => hg i hi)

/-- Open rows distribute over appending incident rows. -/
lemma openIncidentsFor_append (l l' : List Incident) (m : String) :
    openIncidentsFor (l ++ l') m = openIncidentsFor l m ++ openIncidentsFor l' m := by
  simp [openIncidentsFor, List.filter_append]

/-- A single row of another monitor contributes no open row of this monitor. -/
lemma openIncidentsFor_singleton_ne (i : Incident) (m : String)
    (hne : i.monitorId ≠ m) : openIncidentsFor [i] m = [] := by
  simp [openIncidentsFor, hne]

/-- One handleResults step preserves the single-open-incident invariant of
every monitor: an incident is inserted only after findOpenIncident returned
none, the ongoing update leaves endAt untouched, and the resolve update sets
endAt non-null. -/
lemma handleResults_atMostOneOpen (s : DbState) (em : Monitor)
    (results : CheckResults) (now : Nat) (nowStr : String) (m : String)
    (h : atMostOneOpen s m) :
    atMostOneOpen (handleResults s em results now nowStr).1 m := by
  unfold atMostOneOpen at h ⊢
  unfold handleResults
  cases hUp : results.isUp with
  | false =>
      simp only [Bool.not_false, if_pos]
      cases hFind : findOpenIncident s.incidents em.id with
      | some ongoing =>
          simp only [updateIncidentRow]
          rw [openIncidentsFor_map_eq]
          · simpa using h
          · intro i
            by_cases hid : (i.id == ongoing.id) = true <;>
              simp [hid, ongoingUpdate]
      | none =>
          have hempty : openIncidentsFor s.incidents em.id = [] := by
            have := hFind
            unfold findOpenIncident at this
            exact List.head?_eq_none_iff.mp this
          rw [openIncidentsFor_append]
          by_cases hm : m = em.id
          · subst hm
            rw [hempty]
            simp [openIncidentsFor, newIncidentRow]
          · rw [openIncidentsFor_singleton_ne]
            · simpa using h
            · simp only [newIncidentRow]
              exact fun hEq => hm hEq.symm
  | true =>
      simp only [Bool.not_true, Bool.false_eq_true, if_neg, not_false_eq_true]
      cases hFind : findOpenIncident s.incidents em.id with
      | some ongoing =>
          simp only [updateIncidentRow]
          refine le_trans (openIncidentsFor_map_le s.incidents _ m ?_) h
          intro i hi
          by_cases hid : (i.id == ongoing.id) = true
          · simp [hid, resolveUpdate] at hi
          · simpa [hid] using hi
      | none => exact h

/-- The per-job step preserves the single-open-incident invariant. -/
lemma processJob_atMostOneOpen (s : DbState) (monitorId : String)
    (probe : ProbeOutcome) (elapsed now : Nat) (nowStr : String) (m : String)
    (h : atMostOneOpen s m) :
    atMostOneOpen (processJob s monitorId probe elapsed now nowStr).1 m := by
  unfold processJob
  cases hFind : findMonitor s.monitors monitorId with
  | none => exact h
  | some em => exact handleResults_atMostOneOpen s em _ now nowStr m h

/-- C2: over any sequence of job executions run one at a time, every monitor
has at most one incident row with endAt null, provided the starting state
satisfies that invariant: an incident is created only after findOpenIncident
returns none, and resolving sets endAt non-null. -/
theorem single_open_incident_invariant (s : DbState) (jobs : List Job) (m : String)
    (h : ∀ m', atMostOneOpen s m') :
    atMostOneOpen (runJobs s jobs).1 m := by
  induction jobs generalizing s with
  | nil => exact h m
  | cons j rest ih =>
      simp only [runJobs]
      exact ih _ (fun m' =>
        processJob_atMostOneOpen s j.monitorId j.probe j.elapsed j.now j.nowStr m' (h m'))

/-- C2 witness: two consecutive down jobs starting from a state without
incidents leave at most one open incident for the monitor. -/
theorem single_open_incident_invariant_witness :
    atMostOneOpen (runJobs exStateNoIncident
      [{ monitorId := "m1", probe := .response 500, elapsed := 30, now := 1000, nowStr := "t1" },
       { monitorId := "m1", probe := .response 500, elapsed := 30, now := 2000, nowStr := "t2" }]).1
      "m1" :=
  single_open_incident_invariant exStateNoIncident _ "m1"
    (fun m' => by simp [atMostOneOpen, openIncidentsFor, exStateNoIncident])

/-- Characterization of the job step when the probe is down and no open
incident exists: the new incident row is appended and the NewIncident event
is emitted. -/
lemma processJob_down_creates (s : DbState) (em : Monitor) (probe : ProbeOutcome)
    (elapsed now : Nat) (nowStr : String)
    (hmon : findMonitor s.monitors em.id = some em)
    (hdown : (performHealthCheck (toMonitorCheck em) probe elapsed).isUp = false)
    (hnoopen : findOpenIncident s.incidents em.id = none) :
    (processJob s em.id probe elapsed now nowStr).1.incidents =
      s.incidents ++
        [newIncidentRow s em (performHealthCheck (toMonitorCheck em) probe elapsed) now] ∧
    (processJob s em.id probe elapsed now nowStr).2 =
      [newIncidentEvent s em (performHealthCheck (toMonitorCheck em) probe elapsed) nowStr] := by
  simp only [processJob, hmon]
  simp only [handleResults, hdown, Bool.not_false, if_true, hnoopen]
  constructor
  · simp [newIncidentRow]
  · simp [newIncidentEvent]

/-- C5: a down probe with no open incident creates an incident row with
startAt now, durationMs 0, status open, endAt null and errorMessage the probe
error, and dispatches exactly one Service Down notification with priority
critical whose message contains the troubleshooting-tip block selected by
the probe errorType. -/
theorem new_incident_fields_and_notification (s : DbState) (em : Monitor)
    (probe : ProbeOutcome) (elapsed now : Nat) (nowStr : String) (e : String)
    (hmon : findMonitor s.monitors em.id = some em)
    (hdown : (performHealthCheck (toMonitorCheck em) probe elapsed).isUp = false)
    (hnoopen : findOpenIncident s.incidents em.id = none)
    (herr : (performHealthCheck (toMonitorCheck em) probe elapsed).errorMessage = some e)
    (hne : e ≠ "") :
    (processJob s em.id probe elapsed now nowStr).1.incidents =
      s.incidents ++
        [{ id := s.nextIncidentId, monitorId := em.id, userId := em.userId,
           status := IncidentStatus.open_, startAt := now, endAt := none,
           durationMs := 0, errorMessage := e }] ∧
    (processJob s em.id probe elapsed now nowStr).2.map (fun ev => ev.priority) =
      [Priority.critical] ∧
    (processJob s em.id probe elapsed now nowStr).2.map (fun ev => ev.title) =
      ["🚨 Service Down: " ++ jsStrOr (some em.name) em.url] ∧
    ∃ a b, (processJob s em.id probe elapsed now nowStr).2.map (fun ev => ev.message) =
      [a ++ (getTroubleshootingTips
        (performHealthCheck (toMonitorCheck em) probe elapsed).errorType ++ b)] := by
  obtain ⟨hinc, hev⟩ := processJob_down_creates s em probe elapsed now nowStr hmon hdown hnoopen
  refine ⟨?_, ?_, ?_, ?_⟩
  · rw [hinc]
    simp [newIncidentRow, incidentErrorMessage, herr, jsStrOr, hne]
  · rw [hev]
    simp [newIncidentEvent, generateNotificationMessages]
  · rw [hev]
    simp [newIncidentEvent, generateNotificationMessages, toMonitorCheck]
  · rw [hev]
    refine ⟨"Your monitored service is currently experiencing issues.\n\n🔗 Service: "
      ++ (jsStrOr (some em.name) em.url
      ++ ("\n❌ Status: "
      ++ (jsStrOr (performHealthCheck (toMonitorCheck em) probe elapsed).errorMessage
            "Unknown error"
      ++ ("\n⏱️ Response Time: "
      ++ (toString (performHealthCheck (toMonitorCheck em) probe elapsed).responseMs
      ++ ("ms\n🕒 Started at: " ++ (nowStr ++ "\n\n"))))))),
      "\n\nWe\u0027ll continue monitoring and notify you when the service is restored.", ?_⟩
    simp [newIncidentEvent, generateNotificationMessages, toMonitorCheck,
      String.append_assoc]

/-- C5 witness: a concrete status-mismatch probe against a state without
incidents creates the open incident row and emits one critical event. -/
theorem new_incident_fields_and_notification_witness :
    (processJob exStateNoIncident exMonitor.id (.response 500) 50 3000 "t").1.incidents =
      exStateNoIncident.incidents ++
        [{ id := exStateNoIncident.nextIncidentId, monitorId := exMonitor.id,
           userId := exMonitor.userId, status := IncidentStatus.open_, startAt := 3000,
           endAt := none, durationMs := 0, errorMessage := "Expected 200, got 500" }] ∧
    (processJob exStateNoIncident exMonitor.id (.response 500) 50 3000 "t").2.map
      (fun ev => ev.priority) = [Priority.critical] := by
  have h := new_incident_fields_and_notification exStateNoIncident exMonitor
    (.response 500) 50 3000 "t" "Expected 200, got 500"
    (by decide) (by decide) (by decide) (by decide) (by decide)
  exact ⟨h.1, h.2.1⟩

/-- The open rows of a monitor are its rows filtered down to endAt null. -/
lemma openIncidentsFor_eq_filter (incidents : List Incident) (m : String) :
    openIncidentsFor incidents m =
      (rowsFor incidents m).filter (fun i => i.endAt.isNone) := by
  unfold openIncidentsFor rowsFor
  rw [List.filter_filter]
  apply List.filter_congr
  intro i _
  exact Bool.and_comm _ _

/-- Mapping a row function that preserves monitorId over the incident table
maps the rows of every monitor pointwise. -/
lemma rowsFor_map_eq (incidents : List Incident) (g : Incident → Incident)
    (m : String) (hg : ∀ i, (g i).monitorId = i.monitorId) :
    rowsFor (incidents.map g) m = (rowsFor incidents m).map g := by
  unfold rowsFor
  rw [List.filter_map]
  congr 1
  apply List.filter_congr
  intro i _
  simp [Function.comp, hg i]

/-- The monitor-status write leaves the looked-up monitor in place with only
its status replaced. -/
lemma findMonitor_setStatus (monitors : List Monitor) (mid : String)
    (st : MonitorStatus) :
    findMonitor (setMonitorStatus monitors mid st) mid =
      (findMonitor monitors mid).map (fun m => { m with status := st }) := by
  unfold findMonitor setMonitorStatus
  induction monitors with
  | nil => rfl
  | cons mo rest ih =>
      by_cases h : mo.id = mid
      · simp [List.filter_cons, h]
      · simp only [List.map_cons, List.filter_cons]
        simpa [h] using ih

/-- Characterization of the job step when the probe is down and the monitor
has exactly one incident row, which is open: the step emits no event,
overwrites the monitor status with down, and rewrites durationMs and
errorMessage of that single row. -/
lemma processJob_down_updates (s : DbState) (em : Monitor) (probe : ProbeOutcome)
    (elapsed now : Nat) (nowStr : String) (inc : Incident)
    (hmon : findMonitor s.monitors em.id = some em)
    (hdown : (performHealthCheck (toMonitorCheck em) probe elapsed).isUp = false)
    (hrows : rowsFor s.incidents em.id = [inc])
    (hopen : inc.endAt = none) :
    (processJob s em.id probe elapsed now nowStr).2 = [] ∧
    (processJob s em.id probe elapsed now nowStr).1.monitors =
      setMonitorStatus s.monitors em.id MonitorStatus.down ∧
    rowsFor (processJob s em.id probe elapsed now nowStr).1.incidents em.id =
      [ongoingUpdate (performHealthCheck (toMonitorCheck em) probe elapsed) now inc inc] := by
  have hfind : findOpenIncident s.incidents em.id = some inc := by
    unfold findOpenIncident
    rw [openIncidentsFor_eq_filter, hrows]
    simp [hopen]
  simp only [processJob, hmon]
  simp only [handleResults, hdown, Bool.not_false, if_true, hfind]
  refine ⟨by trivial, by simp, ?_⟩
  simp only [updateIncidentRow]
  rw [rowsFor_map_eq]
  · rw [hrows]
    simp [ongoingUpdate]
  · intro i
    by_cases h : (i.id == inc.id) = true <;> simp [h, ongoingUpdate]

/-- The monitor-status component plays no role in the final down-updated row. -/
lemma downUpdatedIncident_setStatus (em : Monitor) (st : MonitorStatus)
    (inc : Incident) (l : List Job) :
    downUpdatedIncident { em with status := st } inc l = downUpdatedIncident em inc l := by
  induction l with
  | nil => rfl
  | cons j rest ih =>
      cases rest with
      | nil => rfl
      | cons a t =>
          simp only [downUpdatedIncident]
          exact ih

/-- Overwriting semantics: starting the down sequence from an already-updated
row gives the same final row, as each step rewrites durationMs and
errorMessage from scratch. -/
lemma downUpdatedIncident_overwrite (em : Monitor) (inc : Incident)
    (r : CheckResults) (now : Nat) (l : List Job) (hne : l ≠ []) :
    downUpdatedIncident em (ongoingUpdate r now inc inc) l =
      downUpdatedIncident em inc l := by
  induction l with
  | nil => exact absurd rfl hne
  | cons j rest ih =>
      cases rest with
      | nil => rfl
      | cons a t =>
          simp only [downUpdatedIncident]
          exact ih (by simp)

/-- Main induction for C4: a sequence of down jobs against a monitor whose
only incident row is open never emits an event and leaves exactly that row,
updated per the last job. -/
lemma runJobs_down_sequence (jobs : List Job) :
    ∀ (s : DbState) (em : Monitor) (inc : Incident),
    findMonitor s.monitors em.id = some em →
    rowsFor s.incidents em.id = [inc] →
    inc.endAt = none →
    (∀ j ∈ jobs, j.monitorId = em.id) →
    (∀ j ∈ jobs, (jobResults em j).isUp = false) →
    (runJobs s jobs).2 = [] ∧
    rowsFor (runJobs s jobs).1.incidents em.id = [downUpdatedIncident em inc jobs] := by
  induction jobs with
  | nil =>
      intro s em inc hmon hrows hopen hmid hdown
      exact ⟨rfl, by simpa [downUpdatedIncident] using hrows⟩
  | cons j rest ih =>
      intro s em inc hmon hrows hopen hmid hdown
      have hjm : j.monitorId = em.id := hmid j (by simp)
      have hjd : (performHealthCheck (toMonitorCheck em) j.probe j.elapsed).isUp = false :=
        hdown j (by simp)
      obtain ⟨hev, hmons, hrows1⟩ :=
        processJob_down_updates s em j.probe j.elapsed j.now j.nowStr inc hmon hjd hrows hopen
      simp only [runJobs, hjm, hev]
      set s1 := (processJob s em.id j.probe j.elapsed j.now j.nowStr).1 with hs1
      set inc1 := ongoingUpdate (performHealthCheck (toMonitorCheck em) j.probe j.elapsed)
        j.now inc inc with hinc1
      have hmon1 : findMonitor s1.monitors em.id = some { em with status := MonitorStatus.down } := by
        rw [hmons, findMonitor_setStatus, hmon]
        rfl
      have hopen1 : inc1.endAt = none := by
        simpa [hinc1, ongoingUpdate] using hopen
      have hmid1 : ∀ j' ∈ rest, j'.monitorId = em.id := fun j' hj' => hmid j' (by simp [hj'])
      have hdown1 : ∀ j' ∈ rest, (jobResults em j').isUp = false :=
        fun j' hj' => hdown j' (by simp [hj'])
      obtain ⟨hev2, hrows2⟩ := ih s1 { em with status := MonitorStatus.down } inc1
        hmon1 hrows1 hopen1 hmid1 hdown1
      refine ⟨by simpa using hev2, ?_⟩
      rw [hrows2, downUpdatedIncident_setStatus]
      cases rest with
      | nil => simp [downUpdatedIncident, hinc1, jobResults]
      | cons a t =>
          rw [downUpdatedIncident_overwrite em inc _ _ (a :: t) (by simp)]
          simp [downUpdatedIncident]

/-- The final down-updated row is determined by the last job of the sequence. -/
lemma downUpdatedIncident_concat (em : Monitor) (inc : Incident) (l : List Job)
    (j : Job) :
    downUpdatedIncident em inc (l ++ [j]) =
      ongoingUpdate (jobResults em j) j.now inc inc := by
  induction l with
  | nil => rfl
  | cons a t ih =>
      cases t with
      | nil => rfl
      | cons b u =>
          simp only [List.cons_append, downUpdatedIncident]
          simpa using ih

/-- After the first k+1 down jobs, the row carries the durationMs and
errorMessage of job k. -/
lemma downUpdatedIncident_take (em : Monitor) (inc : Incident) (jobs : List Job)
    (k : Nat) (hk : k < jobs.length) :
    downUpdatedIncident em inc (jobs.take (k+1)) =
      ongoingUpdate (jobResults em (jobs.get ⟨k, hk⟩)) (jobs.get ⟨k, hk⟩).now inc inc := by
  have h1 : jobs.take (k+1) = jobs.take k ++ [jobs.get ⟨k, hk⟩] := by
    rw [List.take_succ]
    congr 1
    rw [List.getElem?_eq_getElem hk]
    rfl
  rw [h1, downUpdatedIncident_concat]

/-- C4: a sequence of down jobs for a monitor whose single incident row is
already open only updates that incident: no notification event is emitted,
exactly one incident row for the monitor remains at the end, and across the
sequence (with job timestamps non-decreasing) the recorded durationMs is
monotonically non-decreasing. -/
theorem consecutive_downs_update_only (s : DbState) (em : Monitor) (inc : Incident)
    (jobs : List Job)
    (hmon : findMonitor s.monitors em.id = some em)
    (hrows : rowsFor s.incidents em.id = [inc])
    (hopen : inc.endAt = none)
    (hmid : ∀ j ∈ jobs, j.monitorId = em.id)
    (hdown : ∀ j ∈ jobs, (jobResults em j).isUp = false)
    (hchain : jobs.Chain' (fun a b => a.now ≤ b.now)) :
    (runJobs s jobs).2 = [] ∧
    (rowsFor (runJobs s jobs).1.incidents em.id).length = 1 ∧
    ∀ k, k + 1 < jobs.length →
      ∀ d1 d2,
        rowsFor (runJobs s (jobs.take (k+1))).1.incidents em.id = [d1] →
        rowsFor (runJobs s (jobs.take (k+2))).1.incidents em.id = [d2] →
        d1.durationMs ≤ d2.durationMs := by
  obtain ⟨hev, hrowsFinal⟩ := runJobs_down_sequence jobs s em inc hmon hrows hopen hmid hdown
  refine ⟨hev, by rw [hrowsFinal]; rfl, ?_⟩
  intro k hk d1 d2 h1 h2
  have e2 : k + 2 = (k + 1) + 1 := by omega
  rw [e2] at h2
  have hsub1 : ∀ j ∈ jobs.take (k+1), j.monitorId = em.id :=
    fun j hj => hmid j (List.take_subset _ _ hj)
  have hsub2 : ∀ j ∈ jobs.take ((k+1)+1), j.monitorId = em.id :=
    fun j hj => hmid j (List.take_subset _ _ hj)
  have hdw1 : ∀ j ∈ jobs.take (k+1), (jobResults em j).isUp = false :=
    fun j hj => hdown j (List.take_subset _ _ hj)
  have hdw2 : ∀ j ∈ jobs.take ((k+1)+1), (jobResults em j).isUp = false :=
    fun j hj => hdown j (List.take_subset _ _ hj)
  obtain ⟨h1ev, hr1⟩ :=
    runJobs_down_sequence (jobs.take (k+1)) s em inc hmon hrows hopen hsub1 hdw1
  obtain ⟨h2ev, hr2⟩ :=
    runJobs_down_sequence (jobs.take ((k+1)+1)) s em inc hmon hrows hopen hsub2 hdw2
  have hd1 : d1 = downUpdatedIncident em inc (jobs.take (k+1)) := by
    have h := hr1.symm.trans h1
    simpa using h.symm
  have hd2 : d2 = downUpdatedIncident em inc (jobs.take ((k+1)+1)) := by
    have h := hr2.symm.trans h2
    simpa using h.symm
  have hk1 : k < jobs.length := by omega
  have hk2 : k + 1 < jobs.length := hk
  rw [hd1, hd2, downUpdatedIncident_take em inc jobs k hk1,
    downUpdatedIncident_take em inc jobs (k+1) hk2]
  simp only [ongoingUpdate]
  have hc := (List.chain'_iff_get.mp hchain) k (by omega)
  omega

/-- C4 witness: two consecutive down jobs against the state whose single
incident row is open emit nothing and leave one row. -/
theorem consecutive_downs_update_only_witness :
    (runJobs exState
      [{ monitorId := "m1", probe := .response 500, elapsed := 30, now := 2000, nowStr := "t1" },
       { monitorId := "m1", probe := .response 500, elapsed := 30, now := 3000, nowStr := "t2" }]).2
      = [] ∧
    (rowsFor (runJobs exState
      [{ monitorId := "m1", probe := .response 500, elapsed := 30, now := 2000, nowStr := "t1" },
       { monitorId := "m1", probe := .response 500, elapsed := 30, now := 3000, nowStr := "t2" }]).1.incidents
      exMonitor.id).length = 1 := by
  have h := consecutive_downs_update_only exState exMonitor exOpenIncident
    [{ monitorId := "m1", probe := .response 500, elapsed := 30, now := 2000, nowStr := "t1" },
     { monitorId := "m1", probe := .response 500, elapsed := 30, now := 3000, nowStr := "t2" }]
    (by decide) (by decide) (by decide) (by decide) (by decide)
    (by simp [List.chain'_cons])
  exact ⟨h.1, h.2.1⟩

end UptimeWorker
